import Mathlib

/-!
Verification of the packaging manifest `client-examples/python/setup.py` of the
`novita-ai-api` repository.  The manifest is a single call to `setuptools.setup`
whose arguments are constant literals except for `packages=find_packages()`,
which depends on the directory layout at build time.  We embed the manifest as
a function of that one environment-dependent input, embed the syntactic shape
of the `setup(...)` call, and define the version / requirement parsing needed
to state the spec's structural properties.
-/

/-- A dotted version number such as `3.8` or `2.31.0`, as its numeric components. -/
abbrev DottedVersion := List Nat

/-- Split a character list on `.` separators (an empty input yields one empty group). -/
def splitOnDot : List Char → List (List Char)
  | [] => [[]]
  | c :: rest =>
    if c = '.' then [] :: splitOnDot rest
    else
      match splitOnDot rest with
      | [] => [[c]]
      | g :: gs => (c :: g) :: gs

/-- Decimal value of a list of digit characters. -/
def digitsToNat (cs : List Char) : Nat :=
  cs.foldl (fun n c => n * 10 + (c.toNat - '0'.toNat)) 0

/-- Parse a dotted version: every dot-separated group must be a non-empty run of
decimal digits. -/
def parseVersionChars (cs : List Char) : Option DottedVersion :=
  let groups := splitOnDot cs
  if groups.all (fun g => !g.isEmpty && g.all Char.isDigit) then
    some (groups.map digitsToNat)
  else none

/-- Parse a version string. -/
def parseVersion (s : String) : Option DottedVersion :=
  parseVersionChars s.data

/-- Parse a semantic version: exactly three non-empty decimal components
separated by dots. -/
def parseSemVer (s : String) : Option (Nat × Nat × Nat) :=
  match parseVersionChars s.data with
  | some [a, b, c] => some (a, b, c)
  | _ => none

/-- Split a character list at the first occurrence of the operator `>=`. -/
def splitOnGe : List Char → Option (List Char × List Char)
  | [] => none
  | '>' :: '=' :: rest => some ([], rest)
  | c :: rest => (splitOnGe rest).map (fun p => (c :: p.1, p.2))

/-- Characters allowed in a package name (PEP 508 name characters). -/
def isPkgNameChar (c : Char) : Bool :=
  c.isAlphanum || c = '-' || c = '_' || c = '.'

/-- Parse a dependency specifier of the form `name>=version`: a non-empty
package name, the operator `>=`, and a valid dotted version. -/
def parseRequirement (s : String) : Option (String × DottedVersion) :=
  match splitOnGe s.data with
  | none => none
  | some (nameCs, verCs) =>
    if !nameCs.isEmpty && nameCs.all isPkgNameChar then
      (parseVersionChars verCs).map (fun ver => (String.mk nameCs, ver))
    else none

/-- Parse a `python_requires` specifier of the form `>=version`. -/
def parsePythonRequires (s : String) : Option DottedVersion :=
  match s.data with
  | '>' :: '=' :: rest => parseVersionChars rest
  | _ => none

/-- Order on dotted versions: lexicographic on components, with missing trailing
components read as zero (so `3.8` and `3.8.0` compare equal). -/
def versionLe : DottedVersion → DottedVersion → Bool
  | [], _ => true
  | x :: xs, [] => x == 0 && versionLe xs []
  | x :: xs, y :: ys => decide (x < y) || (x == y && versionLe xs ys)

/-- Whether interpreter version `v` satisfies a `python_requires` specifier:
the specifier must parse as `>=bound` and then `bound ≤ v` must hold. -/
def pythonRequiresSatisfied (spec : String) (v : DottedVersion) : Bool :=
  match parsePythonRequires spec with
  | some bound => versionLe bound v
  | none => false

/-- Whether the first list is a leading segment of the second. -/
def startsWithChars : List Char → List Char → Bool
  | [], _ => true
  | _ :: _, [] => false
  | p :: ps, c :: cs => p == c && startsWithChars ps cs

/-- Remove a required leading segment, or fail. -/
def dropLeading : List Char → List Char → Option (List Char)
  | [], cs => some cs
  | _ :: _, [] => none
  | p :: ps, c :: cs => if p == c then dropLeading ps cs else none

/-- The classifier stem naming a supported Python version. -/
def pythonClassifierStem : List Char :=
  "Programming Language :: Python :: ".data

/-- Extract the interpreter version named by a `Programming Language :: Python
:: 3.x` classifier; classifiers of other categories, and the bare
`... Python :: 3` classifier (which names no minor version), yield none. -/
def parsePythonVersionClassifier (s : String) : Option DottedVersion :=
  match dropLeading pythonClassifierStem s.data with
  | some rest =>
    match parseVersionChars rest with
    | some ver => if ver.length ≥ 2 then some ver else none
    | none => none
  | none => none

/-- All dotted interpreter versions named by version classifiers in a list. -/
def classifierPythonVersions (cs : List String) : List DottedVersion :=
  cs.filterMap parsePythonVersionClassifier

/-- Whether a classifier belongs to one of the four categories the spec names:
development status, intended audience, license, supported language versions. -/
def classifierCategoryKnown (s : String) : Bool :=
  startsWithChars "Development Status :: ".data s.data ||
  startsWithChars "Intended Audience :: ".data s.data ||
  startsWithChars "License :: ".data s.data ||
  startsWithChars "Programming Language :: Python".data s.data

/-- The metadata produced by evaluating the `setup(...)` call of
`client-examples/python/setup.py`. -/
structure SetupManifest where
  name : String
  version : String
  description : String
  packages : List String
  install_requires : List String
  python_requires : String
  author : String
  author_email : String
  url : String
  classifiers : List String
  deriving DecidableEq

/-- Evaluate the manifest.  `foundPackages` is the result of the
`find_packages()` call, the only input of the script that depends on the
environment (the directory layout at build time); every other argument is a
constant literal transcribed from `setup.py`. -/
def evalSetup (foundPackages : List String) : SetupManifest where
  name := "novita-api-client"
  version := "1.0.0"
  description := "Python client for Novita GPU Instance API"
  packages := foundPackages
  install_requires := ["requests>=2.31.0", "python-dotenv>=1.0.0"]
  python_requires := ">=3.8"
  author := "Novita API Team"
  author_email := "support@novita.ai"
  url := "https://github.com/novita/gpu-instance-api"
  classifiers :=
    [ "Development Status :: 5 - Production/Stable",
      "Intended Audience :: Developers",
      "License :: OSI Approved :: MIT License",
      "Programming Language :: Python :: 3",
      "Programming Language :: Python :: 3.8",
      "Programming Language :: Python :: 3.9",
      "Programming Language :: Python :: 3.10",
      "Programming Language :: Python :: 3.11" ]

/-- Syntactic form of an argument expression in the `setup(...)` call: every
argument in the source is a string literal, a list of string literals, or a
function call. -/
inductive PyArgExpr where
  | strLit (s : String)
  | strListLit (xs : List String)
  | callExpr (f : String)
  deriving DecidableEq

/-- Whether an argument expression is a constant literal. -/
def isConstLiteral : PyArgExpr → Bool
  | .strLit _ => true
  | .strListLit _ => true
  | .callExpr _ => false

/-- The keyword arguments of the single `setup(...)` call, in source order. -/
def setupCallArgs : List (String × PyArgExpr) :=
  [ ("name", .strLit "novita-api-client"),
    ("version", .strLit "1.0.0"),
    ("description", .strLit "Python client for Novita GPU Instance API"),
    ("packages", .callExpr "find_packages"),
    ("install_requires", .strListLit ["requests>=2.31.0", "python-dotenv>=1.0.0"]),
    ("python_requires", .strLit ">=3.8"),
    ("author", .strLit "Novita API Team"),
    ("author_email", .strLit "support@novita.ai"),
    ("url", .strLit "https://github.com/novita/gpu-instance-api"),
    ("classifiers", .strListLit
      [ "Development Status :: 5 - Production/Stable",
        "Intended Audience :: Developers",
        "License :: OSI Approved :: MIT License",
        "Programming Language :: Python :: 3",
        "Programming Language :: Python :: 3.8",
        "Programming Language :: Python :: 3.9",
        "Programming Language :: Python :: 3.10",
        "Programming Language :: Python :: 3.11" ]) ]

/-- The top-level statements of `setup.py` that invoke `setup`: exactly one
call, with the arguments above. -/
def setupCalls : List (List (String × PyArgExpr)) :=
  [setupCallArgs]

/-- Claim C1: every evaluation of the manifest has name field
`novita-api-client` and version field `1.0.0`. -/
theorem setup_name_version (env : List String) :
    (evalSetup env).name = "novita-api-client" ∧ (evalSetup env).version = "1.0.0" :=
  ⟨rfl, rfl⟩

/-- Claim C2: the manifest declares exactly the two runtime dependencies
`requests>=2.31.0` and `python-dotenv>=1.0.0`, each parsing as a
minimum-version (`>=`) requirement, and no others. -/
theorem setup_install_requires (env : List String) :
    (evalSetup env).install_requires = ["requests>=2.31.0", "python-dotenv>=1.0.0"] ∧
    (evalSetup env).install_requires.length = 2 ∧
    parseRequirement "requests>=2.31.0" = some ("requests", [2, 31, 0]) ∧
    parseRequirement "python-dotenv>=1.0.0" = some ("python-dotenv", [1, 0, 0]) :=
  ⟨rfl, rfl, by decide, by decide⟩

/-- Claim C3: the `python_requires` field equals `>=3.8`, and an interpreter
version satisfies the declared constraint exactly when it is at least 3.8. -/
theorem setup_python_requires_iff (env : List String) (v : DottedVersion) :
    (evalSetup env).python_requires = ">=3.8" ∧
    (pythonRequiresSatisfied (evalSetup env).python_requires v = true ↔
      versionLe [3, 8] v = true) := by
  refine ⟨rfl, ?_⟩
  have h : pythonRequiresSatisfied (evalSetup env).python_requires v = versionLe [3, 8] v := rfl
  rw [h]

/-- Claim C4: the declared version string parses as a semantic version with
the three components 1, 0, 0. -/
theorem setup_version_semver (env : List String) :
    parseSemVer (evalSetup env).version = some (1, 0, 0) := by
  show parseSemVer "1.0.0" = some (1, 0, 0)
  decide

/-- Claim C5: every declared dependency specifier parses as a valid
package-requirement string, so the malformed-declaration failure branch is
unreachable. -/
theorem setup_requirements_parse (env : List String) (r : String)
    (h : r ∈ (evalSetup env).install_requires) :
    (parseRequirement r).isSome = true := by
  have h' : r = "requests>=2.31.0" ∨ r = "python-dotenv>=1.0.0" := by
    simpa [evalSetup] using h
  rcases h' with rfl | rfl <;> decide

/-- Witness for C5 at the first declared dependency. -/
theorem setup_requirements_parse_witness :
    ("requests>=2.31.0" ∈ (evalSetup []).install_requires) ∧
    (parseRequirement "requests>=2.31.0").isSome = true :=
  ⟨by decide, setup_requirements_parse [] "requests>=2.31.0" (by decide)⟩

/-- Claim C6: the declared `python_requires` string parses as a valid
specifier with bound 3.8, and the bound is at most every interpreter version
accepted for installation. -/
theorem setup_python_requires_bound (env : List String) (v : DottedVersion)
    (h : pythonRequiresSatisfied (evalSetup env).python_requires v = true) :
    parsePythonRequires (evalSetup env).python_requires = some [3, 8] ∧
    versionLe [3, 8] v = true := by
  have hp : parsePythonRequires (evalSetup env).python_requires = some [3, 8] := by
    show parsePythonRequires ">=3.8" = some [3, 8]
    decide
  refine ⟨hp, ?_⟩
  have hh : pythonRequiresSatisfied (evalSetup env).python_requires v = versionLe [3, 8] v := rfl
  rw [hh] at h
  exact h

/-- Witness for C6 at interpreter version 3.8. -/
theorem setup_python_requires_bound_witness :
    pythonRequiresSatisfied (evalSetup []).python_requires [3, 8] = true ∧
    (parsePythonRequires (evalSetup []).python_requires = some [3, 8] ∧
      versionLe [3, 8] [3, 8] = true) :=
  ⟨by decide, setup_python_requires_bound [] [3, 8] (by decide)⟩

/-- Claim C7: the classifier list contains a development-status classifier, an
intended-audience classifier, a license classifier, and language-version
classifiers for Python 3 and 3.8 through 3.11, and every classifier in the
list falls in one of those four categories. -/
theorem setup_classifiers_categories (env : List String) :
    ("Development Status :: 5 - Production/Stable" ∈ (evalSetup env).classifiers ∧
     "Intended Audience :: Developers" ∈ (evalSetup env).classifiers ∧
     "License :: OSI Approved :: MIT License" ∈ (evalSetup env).classifiers ∧
     "Programming Language :: Python :: 3" ∈ (evalSetup env).classifiers ∧
     "Programming Language :: Python :: 3.8" ∈ (evalSetup env).classifiers ∧
     "Programming Language :: Python :: 3.9" ∈ (evalSetup env).classifiers ∧
     "Programming Language :: Python :: 3.10" ∈ (evalSetup env).classifiers ∧
     "Programming Language :: Python :: 3.11" ∈ (evalSetup env).classifiers) ∧
    (evalSetup env).classifiers.all classifierCategoryKnown = true := by
  have e : (evalSetup env).classifiers =
      [ "Development Status :: 5 - Production/Stable",
        "Intended Audience :: Developers",
        "License :: OSI Approved :: MIT License",
        "Programming Language :: Python :: 3",
        "Programming Language :: Python :: 3.8",
        "Programming Language :: Python :: 3.9",
        "Programming Language :: Python :: 3.10",
        "Programming Language :: Python :: 3.11" ] := rfl
  rw [e]
  decide

/-- Counterexample to claim C9 as stated: the `packages` argument of the
`setup(...)` call is the function call `find_packages()`, not a constant
literal. -/
theorem setup_args_not_all_literals :
    ("packages", PyArgExpr.callExpr "find_packages") ∈ setupCallArgs ∧
    isConstLiteral (PyArgExpr.callExpr "find_packages") = false := by
  decide

/-- Claim C9 (amended): `setup` is invoked exactly once, every argument except
`packages` (which is the call `find_packages()`) is a constant literal, and
any two evaluations of the manifest agree on name, version, dependencies,
`python_requires`, author fields, url, and the classifier list. -/
theorem setup_declarative_deterministic (e1 e2 : List String) :
    setupCalls.length = 1 ∧
    (setupCallArgs.all (fun a => a.1 == "packages" || isConstLiteral a.2)) = true ∧
    (evalSetup e1).name = (evalSetup e2).name ∧
    (evalSetup e1).version = (evalSetup e2).version ∧
    (evalSetup e1).install_requires = (evalSetup e2).install_requires ∧
    (evalSetup e1).python_requires = (evalSetup e2).python_requires ∧
    (evalSetup e1).author = (evalSetup e2).author ∧
    (evalSetup e1).author_email = (evalSetup e2).author_email ∧
    (evalSetup e1).url = (evalSetup e2).url ∧
    (evalSetup e1).classifiers = (evalSetup e2).classifiers :=
  ⟨rfl, by decide, rfl, rfl, rfl, rfl, rfl, rfl, rfl, rfl⟩

/-- Claim C10: every interpreter version named by a `Programming Language ::
Python :: 3.x` classifier satisfies the declared `python_requires`
constraint. -/
theorem setup_classifier_versions_satisfy (env : List String) (v : DottedVersion)
    (h : v ∈ classifierPythonVersions (evalSetup env).classifiers) :
    pythonRequiresSatisfied (evalSetup env).python_requires v = true := by
  have e1 : (evalSetup env).python_requires = ">=3.8" := rfl
  have e2 : classifierPythonVersions (evalSetup env).classifiers =
      [[3, 8], [3, 9], [3, 10], [3, 11]] := by
    show classifierPythonVersions
        [ "Development Status :: 5 - Production/Stable",
          "Intended Audience :: Developers",
          "License :: OSI Approved :: MIT License",
          "Programming Language :: Python :: 3",
          "Programming Language :: Python :: 3.8",
          "Programming Language :: Python :: 3.9",
          "Programming Language :: Python :: 3.10",
          "Programming Language :: Python :: 3.11" ] = [[3, 8], [3, 9], [3, 10], [3, 11]]
    decide
  rw [e2] at h
  rw [e1]
  have h' : v = [3, 8] ∨ v = [3, 9] ∨ v = [3, 10] ∨ v = [3, 11] := by simpa using h
  rcases h' with rfl | rfl | rfl | rfl <;> decide

/-- Witness for C10 at the version named by the 3.8 classifier. -/
theorem setup_classifier_versions_satisfy_witness :
    ([3, 8] ∈ classifierPythonVersions (evalSetup []).classifiers) ∧
    pythonRequiresSatisfied (evalSetup []).python_requires [3, 8] = true :=
  ⟨by decide, setup_classifier_versions_satisfy [] [3, 8] (by decide)⟩
